/-
Verification of local_ai_ocr against its specification.

Shallow embedding of the program's data model and operations:
  - src/config.py              : constants (IMAGE_EXTENSIONS, OLLAMA_HOST, ...)
  - src/file_handler.py        : image preprocessing, PDF page rendering (zoom cap)
  - src/ui/control_panel.py    : work queue, preview debounce, box drawing
  - src/ui/main_window.py      : pre-flight gating, drag-and-drop URL processing

Numeric modelling: Python float arithmetic is modelled exactly over ℚ
(the zoom computation involves only +, *, /, max and comparisons on
values where exact rational arithmetic coincides with the intent of the
code); machine pixel channels are Nat with the 0..255 range explicit in
the blending formulas.
-/
import Mathlib

namespace LocalAiOcr

/-! ## config.py -/

/-- `config.IMAGE_EXTENSIONS` from src/config.py: the allow-list of image
file extensions for adding files and drag and drop. -/
def IMAGE_EXTENSIONS : List String := [".png", ".jpg", ".jpeg", ".webp", ".heic", ".heif"]

/-- `config.OLLAMA_HOST` from src/config.py. -/
def OLLAMA_HOST : String := "http://127.0.0.1:11435"

/-- `config.OLLAMA_MODEL` from src/config.py. -/
def OLLAMA_MODEL : String := "deepseek-ocr:3b"

/-! ## file_handler.py : zoom computation of `extract_pdf_page_bytes`

From src/file_handler.py lines 66-79:
```
MAX_DIM = 3000
zoom = target_dpi / 72.0
if (width * zoom > MAX_DIM) or (height * zoom > MAX_DIM):
    zoom = MAX_DIM / max(width, height)
zoom = max(zoom, 0.5)
```
-/

/-- `MAX_DIM` from `extract_pdf_page_bytes` (src/file_handler.py line 68). -/
def MAX_DIM : ℚ := 3000

/-- The zoom factor computed inside `extract_pdf_page_bytes`
(src/file_handler.py lines 74-79), as a function of the target DPI and
the page's width and height in points. -/
def extract_pdf_page_zoom (target_dpi width height : ℚ) : ℚ :=
  let zoom := target_dpi / 72
  let zoom' := if width * zoom > MAX_DIM ∨ height * zoom > MAX_DIM
    then MAX_DIM / max width height
    else zoom
  max zoom' 0.5

/-- C1: For every PDF page rendered with target_dpi = 144, the zoom factor
follows `zoom = 144/72; if w*zoom > 3000 or h*zoom > 3000 then
zoom = 3000/max(w,h); zoom = max(zoom, 0.5)`; in particular, whenever the
initial zoom overflows the 3000-pixel cap in either dimension, the
resulting zoom is `3000 / max(w, h)` clamped below at 0.5. -/
theorem extract_pdf_page_zoom_cap (w h : ℚ)
    (hbig : w * (144 / 72) > 3000 ∨ h * (144 / 72) > 3000) :
    extract_pdf_page_zoom 144 w h = max (3000 / max w h) 0.5 := by
  unfold extract_pdf_page_zoom MAX_DIM
  simp only
  rw [if_pos hbig]

/-- Witness for C1: a 2000×100-point page at 144 DPI overflows the cap
(2000 · 2 = 4000 > 3000) and the computed zoom is 3000/2000 = 1.5. -/
theorem extract_pdf_page_zoom_cap_witness :
    ((2000 : ℚ) * (144 / 72) > 3000 ∨ (100 : ℚ) * (144 / 72) > 3000) ∧
      extract_pdf_page_zoom 144 2000 100 = max (3000 / max 2000 100) 0.5 :=
  ⟨Or.inl (by norm_num), extract_pdf_page_zoom_cap 2000 100 (Or.inl (by norm_num))⟩

/-! ## file_handler.py : `preprocess_image` and `get_image_bytes`

Model of the PIL image operations used by src/file_handler.py lines 19-48.
An image is a mode tag plus a total per-pixel channel function.  A pixel
always carries four channel slots; which slots are meaningful depends on
the mode (`L`/`LA` store luminance in `r`; for `P` the stored value is the
palette-resolved RGBA interpretation of the pixel, i.e. what PIL's
`convert('RGBA')` yields, the palette table itself being irrelevant to
the properties proved here).  `infoTransparency` models
`'transparency' in img.info`. -/

/-- One pixel: four channel slots, each 0..255. -/
structure Pixel where
  r : Nat
  g : Nat
  b : Nat
  a : Nat
deriving DecidableEq, Repr

/-- PIL image modes that appear in src/file_handler.py. -/
inductive PILMode
  | RGB
  | RGBA
  | L
  | LA
  | P
deriving DecidableEq, Repr

/-- Whether a mode has an alpha channel. -/
def PILMode.hasAlpha : PILMode → Bool
  | .RGBA => true
  | .LA => true
  | _ => false

/-- Number of channels of a mode (`RGB` is the 3-channel representation). -/
def PILMode.channels : PILMode → Nat
  | .RGB => 3
  | .RGBA => 4
  | .L => 1
  | .LA => 2
  | .P => 1

/-- A PIL image: mode, size, per-pixel channels, and whether
`'transparency'` is present in `img.info`. -/
structure PILImage where
  mode : PILMode
  width : Nat
  height : Nat
  px : Nat → Nat → Pixel
  infoTransparency : Bool

/-- The RGBA interpretation of a pixel, per mode: what PIL's
`img.convert('RGBA')` produces at that pixel. -/
def rgbaInterp (img : PILImage) (x y : Nat) : Pixel :=
  let p := img.px x y
  match img.mode with
  | .RGB => ⟨p.r, p.g, p.b, 255⟩
  | .RGBA => p
  | .L => ⟨p.r, p.r, p.r, 255⟩
  | .LA => ⟨p.r, p.r, p.r, p.a⟩
  | .P => p

/-- `img.convert('RGBA')` (src/file_handler.py line 26). -/
def convertRGBA (img : PILImage) : PILImage :=
  { img with mode := .RGBA, px := fun x y => rgbaInterp img x y }

/-- `img.convert('RGB')` (src/file_handler.py line 32): RGBA
interpretation with the alpha slot forced opaque. -/
def convertRGB (img : PILImage) : PILImage :=
  { img with
    mode := .RGB
    px := fun x y =>
      let q := rgbaInterp img x y
      ⟨q.r, q.g, q.b, 255⟩ }

/-- `Image.new('RGB', size, (255, 255, 255))` (src/file_handler.py line 27). -/
def imageNewRGB (w h : Nat) (c : Pixel) : PILImage :=
  ⟨.RGB, w, h, fun _ _ => c, false⟩

/-- PIL's MULDIV255 rounding primitive used by `Image.paste` with a mask:
`tmp = a*b + 128; result = ((tmp >> 8) + tmp) >> 8`. -/
def muldiv255 (a b : Nat) : Nat :=
  let tmp := a * b + 128
  (tmp / 256 + tmp) / 256

/-- Per-channel blend of `Image.paste(src, mask)`: destination weighted by
`255 - mask`, source by `mask`. -/
def blendChannel (dst src m : Nat) : Nat :=
  muldiv255 dst (255 - m) + muldiv255 src m

/-- `background.paste(img, mask=alpha)` (src/file_handler.py line 29):
blends the source's colour channels onto the destination, per pixel,
weighted by the mask; the result keeps the destination's (RGB) mode. -/
def pasteMask (dst src : PILImage) (mask : Nat → Nat → Nat) : PILImage :=
  { dst with px := fun x y =>
      let d := dst.px x y
      let s := src.px x y
      let m := mask x y
      ⟨blendChannel d.r s.r m, blendChannel d.g s.g m, blendChannel d.b s.b m, 255⟩ }

/-- Result of `img.save(buffer, format=...)`: the format string passed to
PIL and the image that was encoded. -/
structure EncodedImage where
  format : String
  image : PILImage

/-- `preprocess_image` (src/file_handler.py lines 19-37): flatten
transparency onto a white background, else convert to RGB, and export as
PNG. -/
def preprocess_image (img : PILImage) : EncodedImage :=
  let img1 :=
    if (img.mode = .RGBA ∨ img.mode = .LA) ∨ (img.mode = .P ∧ img.infoTransparency) then
      let imgRGBA := convertRGBA img
      let background := imageNewRGB img.width img.height ⟨255, 255, 255, 255⟩
      -- img.split()[-1] extracts the alpha channel as the mask
      pasteMask background imgRGBA (fun x y => (imgRGBA.px x y).a)
    else if img.mode ≠ .RGB then
      convertRGB img
    else
      img
  ⟨"PNG", img1⟩

/-- Outcome of `get_image_bytes`: either the preprocessed encoding or the
raw on-disk bytes. -/
inductive ImagePayload
  | processed (e : EncodedImage)
  | raw (bytes : List Nat)

/-- `get_image_bytes` (src/file_handler.py lines 39-48): `loadResult`
models the `try` body (`Image.open` + `preprocess_image`, either of which
may raise); on any exception the raw file bytes are returned unmodified. -/
def get_image_bytes (loadResult : Except String PILImage) (rawBytes : List Nat) :
    ImagePayload :=
  match loadResult with
  | .ok img => .processed (preprocess_image img)
  | .error _ => .raw rawBytes

/-- `muldiv255` with zero weight contributes nothing. -/
theorem muldiv255_zero (s : Nat) : muldiv255 s 0 = 0 := by
  simp [muldiv255]

/-- `muldiv255` at full weight leaves a 255 channel unchanged. -/
theorem muldiv255_full : muldiv255 255 255 = 255 := by decide

/-- C2: for every input image whose mode carries transparency (RGBA, LA,
or palette mode with a transparency entry), `preprocess_image` emits a
PNG-encoded 3-channel RGB image with no alpha channel, and every fully
transparent pixel is composited to opaque white. -/
theorem preprocess_image_flattens_transparency (img : PILImage)
    (htrans : (img.mode = .RGBA ∨ img.mode = .LA) ∨
      (img.mode = .P ∧ img.infoTransparency)) :
    (preprocess_image img).format = "PNG" ∧
    (preprocess_image img).image.mode = .RGB ∧
    PILMode.hasAlpha (preprocess_image img).image.mode = false ∧
    PILMode.channels (preprocess_image img).image.mode = 3 ∧
    ∀ x y, (rgbaInterp img x y).a = 0 →
      (preprocess_image img).image.px x y = ⟨255, 255, 255, 255⟩ := by
  unfold preprocess_image
  simp only [if_pos htrans]
  refine ⟨by trivial, by trivial, by trivial, by trivial, ?_⟩
  intro x y ha
  show (pasteMask (imageNewRGB img.width img.height ⟨255, 255, 255, 255⟩)
      (convertRGBA img) (fun x y => ((convertRGBA img).px x y).a)).px x y = _
  simp only [pasteMask, imageNewRGB, convertRGBA, blendChannel]
  simp only [ha, Nat.sub_zero, muldiv255_zero, muldiv255_full]

/-- A concrete fully transparent 1×1 RGBA image. -/
def transparentProbeImage : PILImage :=
  ⟨.RGBA, 1, 1, fun _ _ => ⟨10, 20, 30, 0⟩, false⟩

/-- Witness for C2: the transparency branch applies to the RGBA probe
image, and the theorem's conclusion holds for it. -/
theorem preprocess_image_flattens_transparency_witness :
    (((transparentProbeImage.mode = .RGBA ∨ transparentProbeImage.mode = .LA) ∨
      (transparentProbeImage.mode = .P ∧ transparentProbeImage.infoTransparency)) ∧
    ((preprocess_image transparentProbeImage).format = "PNG" ∧
    (preprocess_image transparentProbeImage).image.mode = .RGB ∧
    PILMode.hasAlpha (preprocess_image transparentProbeImage).image.mode = false ∧
    PILMode.channels (preprocess_image transparentProbeImage).image.mode = 3 ∧
    ∀ x y, (rgbaInterp transparentProbeImage x y).a = 0 →
      (preprocess_image transparentProbeImage).image.px x y = ⟨255, 255, 255, 255⟩)) :=
  ⟨Or.inl (Or.inl rfl),
    preprocess_image_flattens_transparency transparentProbeImage (Or.inl (Or.inl rfl))⟩

/-- C3: `get_image_bytes` returns the raw on-disk bytes unmodified when
loading/preprocessing fails, and the preprocessed PNG encoding when it
succeeds; being a total function, it never raises. -/
theorem get_image_bytes_fallback (err : String) (raw : List Nat) (img : PILImage) :
    get_image_bytes (.error err) raw = .raw raw ∧
    get_image_bytes (.ok img) raw = .processed (preprocess_image img) ∧
    (preprocess_image img).format = "PNG" :=
  ⟨rfl, rfl, rfl⟩

/-! ## control_panel.py : the work queue

`self.image_queue` is a list of `(display_name, filepath, page_index)`
tuples; `page_index = -1` for images, `0+` for PDF pages
(src/ui/control_panel.py lines 29-31). -/

/-- One entry of `image_queue`. -/
structure QueueItem where
  display_name : String
  source_path : String
  page_index : Int
deriving DecidableEq, Repr

/-- `str.rfind(c)` over the characters of a path: index of the last
occurrence, `-1` when absent (CPython posixpath semantics). -/
def rfindIdx (c : Char) (cs : List Char) : Int :=
  match (cs.enum.filter (fun p => p.2 = c)).getLast? with
  | some (i, _) => (i : Int)
  | none => -1

/-- `os.path.basename(p)` (posix): everything after the last `/`. -/
def basename (p : String) : String :=
  String.mk (p.toList.drop ((rfindIdx '/' p.toList) + 1).toNat)

/-- `os.path.splitext(p)[1]` (posix): the extension from the last dot of
the last path component, empty when the component has only leading dots. -/
def splitextExt (p : String) : String :=
  let cs := p.toList
  let sepIndex := rfindIdx '/' cs
  let dotIndex := rfindIdx '.' cs
  if dotIndex > sepIndex then
    let d := dotIndex.toNat
    let f := (sepIndex + 1).toNat
    if ((cs.drop f).take (d - f)).any (fun ch => ch ≠ '.') then
      String.mk (cs.drop d)
    else ""
  else ""

/-- `os.path.splitext(path)[1].lower()` as used in src/ui/main_window.py
lines 388 and 434. -/
def extLower (p : String) : String :=
  (splitextExt p).toLower

/-- `add_image_files` (src/ui/control_panel.py lines 171-182): appends one
queue entry per file, with `page_index = -1`, display name the file's base
name.  (List-selection and status updates are presentation-only.) -/
def add_image_files (queue : List QueueItem) (filepaths : List String) :
    List QueueItem :=
  filepaths.foldl (fun q f => q ++ [⟨basename f, f, -1⟩]) queue

/-- Per-PDF environment for `add_pdf_files`: the page count reported by
`file_handler.get_pdf_page_count` and the outcome of the
`PageRangeDialog` prompt (`none` = the user cancelled; `some (s, e)` =
accepted 1-based inclusive range). -/
structure PdfEnv where
  pageCount : Nat
  dialogResult : Option (Nat × Nat)

/-- The inner page loop of `add_pdf_files` (src/ui/control_panel.py lines
206-209): `for i in range(start_p - 1, end_p)` appending
`(f"{base_name} :P{i+1}", f, i)`. -/
def rangeItems (path : String) (s e : Nat) : List QueueItem :=
  (List.range' (s - 1) (e - (s - 1))).map
    (fun (i : Nat) => ⟨basename path ++ " :P" ++ toString (i + 1), path, (i : Int)⟩)

/-- The queue entries one PDF contributes in `add_pdf_files`
(src/ui/control_panel.py lines 192-209): default range is all pages
(`start_p, end_p = 1, count`); for `count >= 2` the range dialog is shown
and cancelling contributes nothing (`continue`). -/
def pdf_page_items (path : String) (env : PdfEnv) : List QueueItem :=
  if env.pageCount ≥ 2 then
    match env.dialogResult with
    | some (s, e) => rangeItems path s e
    | none => []
  else
    rangeItems path 1 env.pageCount

/-- `add_pdf_files` (src/ui/control_panel.py lines 189-216): loops over
the requested files, appending each file's pages to the queue. -/
def add_pdf_files (env : String → PdfEnv) (queue : List QueueItem)
    (filepaths : List String) : List QueueItem :=
  filepaths.foldl (fun q f => q ++ pdf_page_items f (env f)) queue

/-- Folding queue-appends over a list of inputs appends the concatenation
of each input's contribution. -/
theorem foldl_append_eq {α β : Type} (g : α → List β) (queue : List β)
    (fs : List α) :
    fs.foldl (fun q f => q ++ g f) queue = queue ++ fs.flatMap g := by
  induction fs generalizing queue with
  | nil => simp
  | cons f fs ih => simp [ih, List.append_assoc]

/-- `add_image_files` appends one `page_index = -1` entry per file. -/
theorem add_image_files_eq (queue : List QueueItem) (fs : List String) :
    add_image_files queue fs =
      queue ++ fs.map (fun f => ⟨basename f, f, -1⟩) := by
  rw [add_image_files, foldl_append_eq]
  congr 1
  induction fs with
  | nil => rfl
  | cons f fs ih => simp [ih]

/-- `add_pdf_files` appends each requested file's pages, in file order. -/
theorem add_pdf_files_eq (env : String → PdfEnv) (queue : List QueueItem)
    (fs : List String) :
    add_pdf_files env queue fs =
      queue ++ fs.flatMap (fun f => pdf_page_items f (env f)) := by
  rw [add_pdf_files, foldl_append_eq]

/-- The 0-based loop of `rangeItems` enumerates exactly the 1-based
inclusive range `[s, e]`, page `p` getting 0-based index `p - 1` and
display name `base :P p`. -/
theorem rangeItems_enumerates (path : String) (s e : Nat) (hs : 1 ≤ s) :
    rangeItems path s e =
      (List.range' s (e + 1 - s)).map
        (fun p => ⟨basename path ++ " :P" ++ toString p, path, (p : Int) - 1⟩) := by
  rw [rangeItems, List.range'_eq_map_range, List.range'_eq_map_range,
    List.map_map, List.map_map]
  have hlen : e - (s - 1) = e + 1 - s := by omega
  rw [hlen]
  congr 1
  funext i
  simp only [Function.comp_apply]
  have h1 : s - 1 + i + 1 = s + i := by omega
  have h2 : ((s - 1 + i : Nat) : Int) = ((s + i : Nat) : Int) - 1 := by omega
  rw [h1, h2]

/-- C4: `add_pdf_files` expands each PDF into exactly one queue entry per
page of the chosen 1-based inclusive range (default: all pages), carrying
the 0-based page index and a `base :P page` display name; a declined
range prompt for a multi-page PDF contributes zero items while the other
files still contribute theirs; `add_image_files` appends entries with
`page_index = -1`. -/
theorem add_pdf_files_expands (env : String → PdfEnv) (queue : List QueueItem)
    (pdfPaths imgPaths : List String) (path : String) (s e : Nat) (hs : 1 ≤ s) :
    add_pdf_files env queue pdfPaths =
      queue ++ pdfPaths.flatMap (fun f => pdf_page_items f (env f)) ∧
    (∀ p envP, envP.pageCount ≥ 2 → envP.dialogResult = none →
      pdf_page_items p envP = []) ∧
    (∀ c s' e', 2 ≤ c →
      pdf_page_items path ⟨c, some (s', e')⟩ = rangeItems path s' e') ∧
    (∀ c dr, c < 2 → pdf_page_items path ⟨c, dr⟩ = rangeItems path 1 c) ∧
    rangeItems path s e =
      (List.range' s (e + 1 - s)).map
        (fun p => ⟨basename path ++ " :P" ++ toString p, path, (p : Int) - 1⟩) ∧
    add_image_files queue imgPaths =
      queue ++ imgPaths.map (fun f => ⟨basename f, f, -1⟩) := by
  refine ⟨add_pdf_files_eq env queue pdfPaths, ?_, ?_, ?_,
    rangeItems_enumerates path s e hs, add_image_files_eq queue imgPaths⟩
  · intro p envP hc hdr
    simp [pdf_page_items, hc, hdr]
  · intro c s' e' hc
    simp [pdf_page_items, hc]
  · intro c dr hc
    have : ¬ c ≥ 2 := by omega
    simp [pdf_page_items, this]

/-- Witness for C4: a two-page PDF with accepted range (1, 2) expands into
pages P1 and P2 with 0-based indices 0 and 1; with the hypothesis `1 ≤ 1`
discharged concretely. -/
theorem add_pdf_files_expands_witness :
    (1 ≤ 1 ∧
      add_pdf_files (fun _ => ⟨2, some (1, 2)⟩) [] ["a/doc.pdf"] =
        [] ++ ["a/doc.pdf"].flatMap
          (fun f => pdf_page_items f ((fun _ => (⟨2, some (1, 2)⟩ : PdfEnv)) f))) ∧
    rangeItems "a/doc.pdf" 1 2 =
      [⟨"doc.pdf :P1", "a/doc.pdf", 0⟩, ⟨"doc.pdf :P2", "a/doc.pdf", 1⟩] := by
  refine ⟨⟨le_refl 1,
    (add_pdf_files_expands (fun _ => ⟨2, some (1, 2)⟩) [] ["a/doc.pdf"] []
      "a/doc.pdf" 1 2 (le_refl 1)).1⟩, ?_⟩
  decide

/-! ## Batch start: queue snapshot ownership (C5)

`on_start_click` (src/ui/control_panel.py lines 298-306) emits the queue
through `start_requested`; `start_processing` (src/ui/main_window.py
lines 301-323) hands it to `OCRWorker`.  `src/ocr_worker.py` itself is
not under src/. -/

/-- Modelled from the spec: `src/ocr_worker.py` (class `OCRWorker`) is
not under src/; per the spec, "item indices are the 0-based position
within the queue snapshot at batch start; re-ordering the queue during a
run has no effect (the worker owns an immutable copy of the snapshot for
the run's lifetime)".  The run state pairs the UI-owned queue with the
worker's own copy, taken at `start`. -/
structure RunState where
  uiQueue : List QueueItem
  workerSnapshot : List QueueItem

/-- Modelled from the spec: starting the worker copies the queue passed
by `on_start_click` into the worker. -/
def startWorker (queue : List QueueItem) : RunState :=
  ⟨queue, queue⟩

/-- A mutation of the UI-owned work queue performed after the run has
started (re-ordering, clearing, appending — any rearrangement). -/
def applyQueueOp (st : RunState) (f : List QueueItem → List QueueItem) : RunState :=
  { st with uiQueue := f st.uiQueue }

/-- A sequence of queue mutations applied during the run. -/
def applyQueueOps (st : RunState) (ops : List (List QueueItem → List QueueItem)) :
    RunState :=
  ops.foldl applyQueueOp st

/-- Modelled from the spec: the item sequence the worker processes — each
snapshot entry paired with its 0-based position. -/
def workerItemSeq (st : RunState) : List (Nat × QueueItem) :=
  st.workerSnapshot.enum

/-- C5: the worker's item sequence is determined by the snapshot taken at
batch start: any sequence of queue mutations performed during the run
leaves the processed items, their order and their 0-based indices
unchanged, so two runs from the same snapshot emit the same sequence
regardless of mutations. -/
theorem worker_snapshot_immutable (snapshot : List QueueItem)
    (ops ops' : List (List QueueItem → List QueueItem)) :
    workerItemSeq (applyQueueOps (startWorker snapshot) ops) =
      workerItemSeq (applyQueueOps (startWorker snapshot) ops') ∧
    workerItemSeq (applyQueueOps (startWorker snapshot) ops) = snapshot.enum := by
  have hsnap : ∀ (st : RunState) (l : List (List QueueItem → List QueueItem)),
      (applyQueueOps st l).workerSnapshot = st.workerSnapshot := by
    intro st l
    induction l generalizing st with
    | nil => rfl
    | cons op l ih => rw [applyQueueOps, List.foldl_cons, ← applyQueueOps, ih]; rfl
  constructor
  · rw [workerItemSeq, workerItemSeq, hsnap, hsnap]
  · rw [workerItemSeq, hsnap]; rfl

/-! ## Pre-flight gating (C6)

`initiate_processing` (src/ui/main_window.py lines 267-280) and
`on_precheck_finished` (lines 282-299).  `PreCheckWorker` lives in
`src/ollama_service.py`, not under src/; its result is the
`(success, error_type, error_msg)` triple of the `finished` signal. -/

/-- A user-visible dialog raised by the main window during batch start. -/
inductive UIMessage
  | connectionError (host : String)
  | modelMissing (model : String)
  | loopDisclaimer
deriving DecidableEq, Repr

/-- The main-window state that the processing flow touches: whether the
UI is in the processing state, whether an `OCRWorker` has been created
and started, and the dialogs shown so far. -/
structure MainUIState where
  processing : Bool
  workerCreated : Bool
  shownMessages : List UIMessage
deriving DecidableEq, Repr

/-- `initiate_processing` (src/ui/main_window.py lines 267-280): disables
the UI and launches the pre-check worker; no `OCRWorker` is created yet. -/
def initiate_processing (st : MainUIState) : MainUIState :=
  { st with processing := true }

/-- `start_processing` (src/ui/main_window.py lines 301-323): creates and
starts the `OCRWorker`. -/
def start_processing (st : MainUIState) : MainUIState :=
  { st with processing := true, workerCreated := true }

/-- `on_precheck_finished` (src/ui/main_window.py lines 282-299): on
failure, return to idle and show the dialog matching the failure kind
(`'connection'` vs `'model'`); on success, show the disclaimer and start
processing. -/
def on_precheck_finished (st : MainUIState) (success : Bool)
    (error_type : String) : MainUIState :=
  if success = false then
    let st1 := { st with processing := false }
    if error_type = "connection" then
      { st1 with shownMessages := st1.shownMessages ++ [.connectionError OLLAMA_HOST] }
    else if error_type = "model" then
      { st1 with shownMessages := st1.shownMessages ++ [.modelMissing OLLAMA_MODEL] }
    else
      st1
  else
    let st2 := { st with shownMessages := st.shownMessages ++ [.loopDisclaimer] }
    start_processing st2

/-- C6: on pre-flight failure no worker is created, the UI returns to the
idle state, and the two failure kinds surface as distinct dialogs
(backend unreachable vs model missing); a worker is only ever created by
the success branch. -/
theorem precheck_gates_batch_start (st : MainUIState) (error_type : String) :
    (on_precheck_finished st false error_type).workerCreated = st.workerCreated ∧
    (on_precheck_finished st false error_type).processing = false ∧
    (error_type = "connection" →
      (on_precheck_finished st false error_type).shownMessages =
        st.shownMessages ++ [.connectionError OLLAMA_HOST]) ∧
    (error_type = "model" →
      (on_precheck_finished st false error_type).shownMessages =
        st.shownMessages ++ [.modelMissing OLLAMA_MODEL]) ∧
    (∀ h m, UIMessage.connectionError h ≠ UIMessage.modelMissing m) ∧
    (on_precheck_finished st true error_type).workerCreated = true ∧
    (initiate_processing st).workerCreated = st.workerCreated := by
  refine ⟨?_, ?_, ?_, ?_, ?_, rfl, rfl⟩
  · by_cases hc : error_type = "connection" <;>
      by_cases hm : error_type = "model" <;>
      simp [on_precheck_finished, hc, hm]
  · by_cases hc : error_type = "connection" <;>
      by_cases hm : error_type = "model" <;>
      simp [on_precheck_finished, hc, hm]
  · intro hc
    simp [on_precheck_finished, hc]
  · intro hm
    by_cases hc : error_type = "connection"
    · rw [hc] at hm; exact absurd hm (by decide)
    · simp [on_precheck_finished, hc, hm]
  · intro h m hEq
    exact UIMessage.noConfusion hEq

/-- Witness for C6: a connection-kind pre-flight failure from the idle
state creates no worker, leaves the UI idle, and shows the connection
dialog. -/
theorem precheck_gates_batch_start_witness :
    ("connection" = "connection" →
      (on_precheck_finished ⟨false, false, []⟩ false "connection").shownMessages =
        [] ++ [.connectionError OLLAMA_HOST]) ∧
    (on_precheck_finished ⟨false, false, []⟩ false "connection").workerCreated = false :=
  ⟨(precheck_gates_batch_start ⟨false, false, []⟩ "connection").2.2.1,
    (precheck_gates_batch_start ⟨false, false, []⟩ "connection").1⟩

/-! ## Preview debounce (C7)

`self.debounce_timer` is a 200ms single-shot `QTimer`
(src/ui/control_panel.py lines 42-45).  `on_queue_item_changed` (lines
238-261) cancels any in-flight load, stops the pending timer, and
restarts it; `_perform_load_image` (lines 263-279), run on timeout,
loads the item selected at that moment.

The model replays a time-ordered burst of selection-change events
(millisecond timestamps paired with the newly selected item) through the
single-shot timer semantics: a pending timer armed at time `t` fires at
`t + 200` unless a later event arrives strictly earlier and re-arms it;
each firing performs one load, of the selection current at that moment. -/

/-- The debounce interval (src/ui/control_panel.py line 44). -/
def DEBOUNCE_MS : Nat := 200

/-- Replays selection events after one event has armed the timer at time
`t` with selection `a`: a later event at `t'` re-arms the timer, and the
pending load fires only when the next event arrives at or after the
`t + DEBOUNCE_MS` deadline (or never arrives). -/
def debounceRun {α : Type} (t : Nat) (a : α) : List (Nat × α) → List α
  | [] => [a]
  | (t', a') :: rest =>
    if t + DEBOUNCE_MS ≤ t' then a :: debounceRun t' a' rest
    else debounceRun t' a' rest

/-- The loads performed for a time-ordered list of selection-change
events, starting with no timer pending. -/
def debounceLoads {α : Type} : List (Nat × α) → List α
  | [] => []
  | (t, a) :: rest => debounceRun t a rest

/-- C7: a burst of selection changes in which every event arrives within
the 200ms window of its predecessor performs exactly one load, for the
last-selected item. -/
theorem debounce_single_load {α : Type} (events : List (Nat × α))
    (hne : events ≠ [])
    (hburst : events.Chain' (fun p q => q.1 < p.1 + DEBOUNCE_MS)) :
    debounceLoads events = [(events.getLast hne).2] := by
  match events with
  | (t, a) :: rest =>
    rw [debounceLoads]
    induction rest generalizing t a with
    | nil => rfl
    | cons p rest ih =>
      obtain ⟨t', a'⟩ := p
      rw [List.chain'_cons] at hburst
      rw [debounceRun, if_neg (by omega)]
      rw [ih t' a' (by simp) hburst.2]
      congr 1

/-- Witness for C7: five selection changes 50ms apart (all within the
200ms window of their predecessor) perform exactly one load, for the
fifth item. -/
theorem debounce_single_load_witness :
    ([((0 : Nat), (1 : Nat)), (50, 2), (100, 3), (150, 4), (199, 5)] ≠
        ([] : List (Nat × Nat)) ∧
      List.Chain' (fun p q => q.1 < p.1 + DEBOUNCE_MS)
        [((0 : Nat), (1 : Nat)), (50, 2), (100, 3), (150, 4), (199, 5)]) ∧
    debounceLoads [((0 : Nat), (1 : Nat)), (50, 2), (100, 3), (150, 4), (199, 5)] = [5] := by
  refine ⟨⟨by decide, by norm_num [List.chain'_cons, DEBOUNCE_MS]⟩, ?_⟩
  rw [debounce_single_load _ (by decide) (by norm_num [List.chain'_cons, DEBOUNCE_MS])]
  rfl

/-! ## Preview load callbacks (C8)

`_perform_load_image` connects `image_loaded` to `on_image_loaded`
capturing the row the load was issued for; `on_image_loaded`
(src/ui/control_panel.py lines 281-295) discards results for rows that
are no longer selected. -/

/-- Bounding-box coordinates `[x1, y1, x2, y2]` in pixel space. -/
abbrev Coords : Type := List Int

/-- An RGB colour produced by the random generator in `draw_box`. -/
abbrev BoxColor : Type := Nat × Nat × Nat

/-- The `ControlPanel` state touched by preview display and box drawing:
the queue, the per-index stored boxes (`self.image_boxes`, a dict
defaulting to absent keys), the index being processed, the selected row,
the displayed image and the draw calls issued to the viewer. -/
structure CPState where
  image_queue : List QueueItem
  image_boxes : Int → List (Coords × BoxColor)
  current_processing_index : Int
  currentRow : Int
  displayedImage : Option (List Nat)
  viewerDrawn : List (Coords × BoxColor)

/-- `on_image_loaded` (src/ui/control_panel.py lines 281-295): a result
for a row that is no longer the current selection is discarded; otherwise
the image is displayed and that row's stored boxes are redrawn. -/
def on_image_loaded (st : CPState) (img_bytes : List Nat) (row : Int) : CPState :=
  if st.currentRow ≠ row then st
  else
    { st with
      displayedImage := some img_bytes
      viewerDrawn := st.viewerDrawn ++ st.image_boxes row }

/-- Outcome of one `ImageLoaderThread` request. -/
inductive LoaderOutcome
  | completed (bytes : List Nat)
  | failed (msg : String)
  | cancelled

/-- A callback fired by the preview loader. -/
inductive LoaderCallback
  | loaded (bytes : List Nat)
  | errored (msg : String)

/-- Modelled from the spec: `src/ui/image_loader.py` (class
`ImageLoaderThread`) is not under src/; per the spec, "`on_loaded(bytes)`
/ `on_error(message)` callbacks fire exactly once per *non-cancelled*
request. A cancelled request fires neither callback." -/
def loaderCallbacks : LoaderOutcome → List LoaderCallback
  | .completed b => [.loaded b]
  | .failed m => [.errored m]
  | .cancelled => []

/-- C8: a cancelled request fires no callback at all, and a load result
arriving for a row that is no longer the current selection leaves the
panel state — display and drawn boxes included — completely unchanged. -/
theorem stale_preview_result_discarded (st : CPState) (img_bytes : List Nat)
    (row : Int) (hstale : st.currentRow ≠ row) :
    loaderCallbacks .cancelled = [] ∧
    on_image_loaded st img_bytes row = st := by
  refine ⟨rfl, ?_⟩
  rw [on_image_loaded, if_pos hstale]

/-- Witness for C8: a result for row 1 arriving while row 0 is selected
is discarded. -/
theorem stale_preview_result_discarded_witness :
    ((⟨[], fun _ => [], -1, 0, none, []⟩ : CPState).currentRow ≠ 1) ∧
    (loaderCallbacks .cancelled = [] ∧
      on_image_loaded ⟨[], fun _ => [], -1, 0, none, []⟩ [7] 1 =
        ⟨[], fun _ => [], -1, 0, none, []⟩) :=
  ⟨by decide,
    stale_preview_result_discarded ⟨[], fun _ => [], -1, 0, none, []⟩ [7] 1 (by decide)⟩

/-! ## Box drawing (C9)

`draw_box` (src/ui/control_panel.py lines 335-353), with
`current_processing_index` initialised to `-1` (line 35) and set by
`on_process_started` (lines 313-330).  The randomly generated colour is a
parameter of the model. -/

/-- `draw_box` (src/ui/control_panel.py lines 335-353): drop the box when
nothing is being processed; otherwise store it under the
currently-processed index and draw it only when that index is the current
selection. -/
def draw_box (st : CPState) (coords : Coords) (color : BoxColor) : CPState :=
  if st.current_processing_index = -1 then st
  else
    let idx := st.current_processing_index
    let st1 := { st with
      image_boxes := fun k =>
        if k = idx then st.image_boxes idx ++ [(coords, color)]
        else st.image_boxes k }
    if st1.currentRow = idx then
      { st1 with viewerDrawn := st1.viewerDrawn ++ [(coords, color)] }
    else
      st1

/-- C9: with no item being processed (`current_processing_index = -1`,
the state before any item-started callback) `draw_box` is a no-op —
nothing stored, nothing drawn, no error; with an item being processed the
box is always stored under that item's index (other indices untouched)
and is drawn exactly when that item is the current selection. -/
theorem draw_box_routes_to_processing_index (st : CPState) (coords : Coords)
    (color : BoxColor) (idle : st.current_processing_index = -1)
    (st' : CPState) (busy : st'.current_processing_index ≠ -1) :
    draw_box st coords color = st ∧
    (draw_box st' coords color).image_boxes st'.current_processing_index =
      st'.image_boxes st'.current_processing_index ++ [(coords, color)] ∧
    (∀ k, k ≠ st'.current_processing_index →
      (draw_box st' coords color).image_boxes k = st'.image_boxes k) ∧
    (st'.currentRow = st'.current_processing_index →
      (draw_box st' coords color).viewerDrawn =
        st'.viewerDrawn ++ [(coords, color)]) ∧
    (st'.currentRow ≠ st'.current_processing_index →
      (draw_box st' coords color).viewerDrawn = st'.viewerDrawn) := by
  refine ⟨by rw [draw_box, if_pos idle], ?_, ?_, ?_, ?_⟩
  · rw [draw_box, if_neg busy]
    by_cases hrow : st'.currentRow = st'.current_processing_index <;>
      simp [hrow]
  · intro k hk
    rw [draw_box, if_neg busy]
    by_cases hrow : st'.currentRow = st'.current_processing_index <;>
      simp [hrow, hk]
  · intro hrow
    rw [draw_box, if_neg busy]
    simp [hrow]
  · intro hrow
    rw [draw_box, if_neg busy]
    simp [hrow]

/-- Idle panel state used by the C9 witness. -/
def idleProbeState : CPState :=
  ⟨[], fun _ => [], -1, 0, none, []⟩

/-- Busy panel state used by the C9 witness: item 2 is being processed
while row 0 is selected. -/
def busyProbeState : CPState :=
  ⟨[], fun _ => [], 2, 0, none, []⟩

/-- Witness for C9: a box arriving with no item being processed is
dropped, and one arriving while item 2 is processed (row 0 selected) is
stored under index 2 and not drawn. -/
theorem draw_box_routes_to_processing_index_witness :
    (idleProbeState.current_processing_index = -1 ∧
      busyProbeState.current_processing_index ≠ -1) ∧
    (draw_box idleProbeState [1, 2, 3, 4] (10, 20, 30) = idleProbeState ∧
      (draw_box busyProbeState [1, 2, 3, 4] (10, 20, 30)).image_boxes
          busyProbeState.current_processing_index =
        busyProbeState.image_boxes busyProbeState.current_processing_index ++
          [([1, 2, 3, 4], (10, 20, 30))]) :=
  ⟨⟨rfl, by decide⟩,
    (draw_box_routes_to_processing_index idleProbeState [1, 2, 3, 4] (10, 20, 30)
        rfl busyProbeState (by decide)).1,
    (draw_box_routes_to_processing_index idleProbeState [1, 2, 3, 4] (10, 20, 30)
        rfl busyProbeState (by decide)).2.1⟩

/-! ## Drag-and-drop / paste URL processing (C10)

`_process_urls` (src/ui/main_window.py lines 423-460): walks the dropped
URLs in order, batching consecutive images, flushing the pending batch
before each PDF, collecting files with unrecognised extensions as
invalid and warning about them afterwards.  (`file_count` only gates a
presentation-side ordering disclaimer and is not modelled.) -/

/-- A dropped or pasted URL as seen by `_process_urls`: whether
`url.isLocalFile()` holds, and its local path. -/
structure Url where
  isLocalFile : Bool
  path : String

/-- The loop body plus final flush of `_process_urls`
(src/ui/main_window.py lines 429-452), carrying the accumulated queue,
invalid-path list and pending image batch. -/
def process_urls_go (env : String → PdfEnv) :
    List Url → List QueueItem → List String → List String →
      List QueueItem × List String
  | [], queue, invalid, image_batch =>
      -- Flush remaining images
      (if image_batch.isEmpty then queue else add_image_files queue image_batch,
        invalid)
  | u :: rest, queue, invalid, image_batch =>
      if u.isLocalFile then
        if IMAGE_EXTENSIONS.contains (extLower u.path) then
          process_urls_go env rest queue invalid (image_batch ++ [u.path])
        else if extLower u.path == ".pdf" then
          -- Flush pending images first to preserve order
          let queue1 := if image_batch.isEmpty then queue
            else add_image_files queue image_batch
          let queue2 := add_pdf_files env queue1 [u.path]
          process_urls_go env rest queue2 invalid []
        else
          process_urls_go env rest queue (invalid ++ [u.path]) image_batch
      else
        process_urls_go env rest queue invalid image_batch

/-- `_process_urls` (src/ui/main_window.py lines 423-460): the resulting
queue and whether the invalid-files warning is shown. -/
def process_urls (env : String → PdfEnv) (queue : List QueueItem)
    (urls : List Url) : List QueueItem × Bool :=
  let r := process_urls_go env urls queue [] []
  (r.1, !r.2.isEmpty)

/-- The queue entries a single URL contributes: one image item, a PDF's
page expansion, or nothing (non-local URL or disallowed extension). -/
def urlItems (env : String → PdfEnv) (u : Url) : List QueueItem :=
  if u.isLocalFile then
    if IMAGE_EXTENSIONS.contains (extLower u.path) then
      [⟨basename u.path, u.path, -1⟩]
    else if extLower u.path == ".pdf" then
      pdf_page_items u.path (env u.path)
    else []
  else []

/-- A local file whose extension is neither allow-listed nor `.pdf`. -/
def isInvalidUrl (u : Url) : Bool :=
  u.isLocalFile && !(IMAGE_EXTENSIONS.contains (extLower u.path)) &&
    !(extLower u.path == ".pdf")

/-- Invariant of the `_process_urls` loop: the final queue is the
starting queue, then the pending image batch, then each remaining URL's
contribution in input order; invalid paths accumulate in input order. -/
theorem process_urls_go_eq (env : String → PdfEnv) (urls : List Url)
    (queue : List QueueItem) (invalid image_batch : List String) :
    process_urls_go env urls queue invalid image_batch =
      (queue ++ image_batch.map (fun f => ⟨basename f, f, -1⟩) ++
        urls.flatMap (urlItems env),
       invalid ++ (urls.filter isInvalidUrl).map (fun u => u.path)) := by
  induction urls generalizing queue invalid image_batch with
  | nil =>
    by_cases h : image_batch.isEmpty <;>
      simp_all [process_urls_go, add_image_files_eq, List.isEmpty_iff]
  | cons u rest ih =>
    cases hl : u.isLocalFile with
    | false =>
      rw [process_urls_go, if_neg (by simp [hl]), ih]
      simp [urlItems, isInvalidUrl, hl]
    | true =>
      by_cases himg : extLower u.path ∈ IMAGE_EXTENSIONS
      · rw [process_urls_go, if_pos (by simp [hl]),
          if_pos (by simpa using himg), ih]
        simp [urlItems, isInvalidUrl, hl, himg, List.filter_cons]
      · by_cases hpdf : extLower u.path = ".pdf"
        · rw [process_urls_go, if_pos (by simp [hl]),
            if_neg (by simpa using himg), if_pos (by simpa using hpdf)]
          simp only
          rw [ih]
          by_cases h : image_batch.isEmpty <;>
            simp_all [add_image_files_eq, add_pdf_files_eq, urlItems,
              isInvalidUrl, List.isEmpty_iff, List.filter_cons]
        · rw [process_urls_go, if_pos (by simp [hl]),
            if_neg (by simpa using himg), if_neg (by simpa using hpdf), ih]
          simp [urlItems, isInvalidUrl, hl, himg, hpdf, List.filter_cons]

/-- C10: `_process_urls` appends the valid files' queue entries in their
original input order — images as single `page_index = -1` items, PDFs as
their page expansions — while non-local URLs and disallowed extensions
contribute nothing; the warning dialog fires exactly when some local file
had a disallowed extension. -/
theorem process_urls_preserves_order (env : String → PdfEnv)
    (queue : List QueueItem) (urls : List Url) :
    (process_urls env queue urls).1 = queue ++ urls.flatMap (urlItems env) ∧
    ((process_urls env queue urls).2 = true ↔
      ∃ u ∈ urls, isInvalidUrl u = true) := by
  rw [process_urls]
  rw [process_urls_go_eq]
  constructor
  · simp
  · simp [List.isEmpty_iff, List.filter_eq_nil_iff]

end LocalAiOcr
